import Mathlib

/-!
Shallow embedding of GitMonitor (src/main.py), a periodic scan-and-notify
pipeline: checkpoint store (sqlite table of scan dates), commit/diff
harvester, prompt builder with a random delimiter, analysis dispatch and
email notification.  Timestamps are modelled as `Int` seconds; external
collaborators (git, the LLM endpoint, the random source) are oracle
parameters.  The notifier `send_email` is kept fully abstract (an
uninterpreted oracle): its body in the staged source does not parse —
line 72 lacks the trailing colon of its `if`, a Python SyntaxError — so
it has no behavior to embed.
-/

namespace GitMonitor

/-! ## Checkpoint store (init_db / get_last_scan_date / add_scan_date) -/

/-- One row of the sqlite table `(id INTEGER PRIMARY KEY AUTOINCREMENT,
scan_date TEXT NOT NULL)`; the ISO-8601 text round-trips through
`isoformat`/`fromisoformat`, so the date is kept as an `Int` timestamp
(seconds). -/
structure ScanRow where
  id : Nat
  scan_date : Int
deriving DecidableEq, Repr

/-- `datetime.min` (0001-01-01T00:00:00) as seconds relative to the Unix
epoch. -/
def datetimeMin : Int := -62135596800

/-- AUTOINCREMENT: the id assigned to a newly inserted row is strictly
greater than every id already in the table (modelled as max existing + 1). -/
def nextAutoId (rows : List ScanRow) : Nat :=
  (rows.map ScanRow.id).foldr max 0 + 1

/-- `add_scan_date(conn, date)`: INSERT a new row holding the date. -/
def add_scan_date (rows : List ScanRow) (date : Int) : List ScanRow :=
  rows ++ [⟨nextAutoId rows, date⟩]

/-- `SELECT scan_date FROM t ORDER BY id DESC LIMIT 1`: the row with the
highest id (ids are a primary key, so ties cannot occur in reachable
states; on a tie the later row wins). -/
def latestScanRow : List ScanRow → Option ScanRow
  | [] => none
  | r :: rs =>
    match latestScanRow rs with
    | none => some r
    | some b => if r.id ≤ b.id then some b else some r

/-- `get_last_scan_date(conn, fresh_clone)`: on a fresh clone returns
`datetime.now() - timedelta(days=10)` (`now` is the ambient wall clock,
passed explicitly); otherwise the most recent stored row, or
`datetime.min` when the table is empty. -/
def get_last_scan_date (rows : List ScanRow) (fresh_clone : Bool) (now : Int) : Int :=
  if fresh_clone then now - 10 * 86400
  else
    match latestScanRow rows with
    | some r => r.scan_date
    | none => datetimeMin

lemma latestScanRow_mem {rows : List ScanRow} {b : ScanRow}
    (h : latestScanRow rows = some b) : b ∈ rows := by
  induction rows with
  | nil => simp [latestScanRow] at h
  | cons a l ih =>
    simp only [latestScanRow] at h
    cases hl : latestScanRow l with
    | none => rw [hl] at h; simp at h; simp [h]
    | some c =>
      rw [hl] at h
      by_cases hid : a.id ≤ c.id
      · simp [hid] at h; subst h; exact List.mem_cons_of_mem _ (ih hl)
      · simp [hid] at h; simp [h]

lemma latestScanRow_dominant {rows : List ScanRow} {r : ScanRow}
    (hmem : r ∈ rows) (hdom : ∀ s ∈ rows, s = r ∨ s.id < r.id) :
    latestScanRow rows = some r := by
  induction rows with
  | nil => cases hmem
  | cons a l ih =>
    rcases List.mem_cons.mp hmem with ha | hl
    · subst ha
      simp only [latestScanRow]
      cases hb : latestScanRow l with
      | none => rfl
      | some b =>
        rcases hdom b (List.mem_cons_of_mem _ (latestScanRow_mem hb)) with hb' | hb'
        · subst hb'; simp
        · simp [Nat.not_le.mpr hb']
    · have hdl : ∀ s ∈ l, s = r ∨ s.id < r.id :=
        fun s hs => hdom s (List.mem_cons_of_mem _ hs)
      have hal : a.id ≤ r.id := by
        rcases hdom a (List.mem_cons_self a l) with ha' | ha'
        · rw [ha']
        · exact Nat.le_of_lt ha'
      simp only [latestScanRow, ih hl hdl, hal, if_pos]

lemma id_lt_nextAutoId {rows : List ScanRow} {s : ScanRow} (h : s ∈ rows) :
    s.id < nextAutoId rows := by
  have : s.id ≤ (rows.map ScanRow.id).foldr max 0 := by
    induction rows with
    | nil => cases h
    | cons a l ih =>
      rcases List.mem_cons.mp h with ha | hl
      · subst ha; exact Nat.le_max_left _ _
      · exact Nat.le_trans (ih hl) (Nat.le_max_right _ _)
  exact Nat.lt_succ_of_le this

/-- C7: `get_last_scan_date` with a fresh mirror returns `now` minus the
fixed 10-day lookback regardless of stored rows; without a fresh mirror it
returns `datetime.min` on an empty store, and otherwise the date of the
row with the (strictly) highest id. -/
theorem C7_get_last_scan_spec (rows : List ScanRow) (now : Int) :
    get_last_scan_date rows true now = now - 10 * 86400
    ∧ get_last_scan_date [] false now = datetimeMin
    ∧ ∀ r ∈ rows, (∀ s ∈ rows, s = r ∨ s.id < r.id) →
        get_last_scan_date rows false now = r.scan_date := by
  refine ⟨rfl, rfl, fun r hmem hdom => ?_⟩
  simp [get_last_scan_date, latestScanRow_dominant hmem hdom]

/-- Witness for C7 on a concrete two-row store. -/
theorem C7_get_last_scan_spec_witness :
    get_last_scan_date [⟨1, 5⟩, ⟨2, 9⟩] true 1000000 = 1000000 - 10 * 86400
    ∧ get_last_scan_date [⟨1, 5⟩, ⟨2, 9⟩] false 1000000 = 9 := by
  have h := C7_get_last_scan_spec [⟨1, 5⟩, ⟨2, 9⟩] 1000000
  exact ⟨h.1, h.2.2 ⟨2, 9⟩ (by decide) (by decide)⟩

/-- C8: recording a scan date and then reading the last scan date with a
non-fresh mirror yields exactly the recorded timestamp, for every store
state (the store round-trips the checkpoint between run N and run N+1). -/
theorem C8_checkpoint_roundtrip (rows : List ScanRow) (t now : Int) :
    get_last_scan_date (add_scan_date rows t) false now = t := by
  have hnew : latestScanRow (rows ++ [⟨nextAutoId rows, t⟩]) =
      some ⟨nextAutoId rows, t⟩ := by
    refine latestScanRow_dominant (by simp) ?_
    intro s hs
    rcases List.mem_append.mp hs with h | h
    · exact Or.inr (id_lt_nextAutoId h)
    · simp at h; simp [h]
  simp [get_last_scan_date, add_scan_date, hnew]

/-! ## Delimiter generation and prompt building
(generate_ultra_strong_password / build_prompt) -/

/-- `string.ascii_letters`. -/
def ascii_letters : String := "abcdefghijklmnopqrstuvwxyzABCDEFGHIJKLMNOPQRSTUVWXYZ"

/-- `string.digits`. -/
def ascii_digits : String := "0123456789"

/-- `characters = string.ascii_letters + string.digits` (as characters). -/
def characters : List Char := (ascii_letters ++ ascii_digits).data

/-- The character sequence of
`''.join(secrets.choice(characters) for _ in range(length))`;
`choice` is the oracle for the cryptographically strong random source
`secrets.choice`, giving the index drawn at each iteration. -/
def pwdChars (choice : Nat → Fin characters.length) (length : Nat) : List Char :=
  (List.range length).map (fun i => characters.get (choice i))

/-- `generate_ultra_strong_password(length=64)`: rejects lengths below 12
with a ValueError, otherwise joins `length` independent draws from
`characters`. -/
def generate_ultra_strong_password (choice : Nat → Fin characters.length)
    (length : Nat) : Except String String :=
  if length < 12 then
    Except.error "Length must be at least 12 characters for strong security."
  else
    Except.ok (String.mk (pwdChars choice length))

/-- The f-string template of `build_prompt` (triple-quoted literal with the
secret fence and the digest interpolated). -/
def promptTemplate (desc secret commit_message : String) : String :=
  "\nI am going to show you some commits with the files modified in the project and the code added/modified.\nThe commits will be placed between the following secret tokens: \"" ++
  secret ++
  "\".\nYou are going to analyze the code and see if there is a new feature added to the project.\nJust for you to get some context, the project description is as follows: " ++
  desc ++ ".\n\n" ++ secret ++ "\n" ++ commit_message ++ "\n" ++ secret ++
  "\n\nI am interested to know new features added in these commits to understand if they need to be researched from a security perspective or have some potential vulnerabilities.\nGive me the response in HTML format.\n    "

/-- `build_prompt(commit_message)`: returns `False` (modelled `none`) on
the sentinel "No changes.", otherwise wraps the digest between two copies
of `secret = "-"*14 + password + "-"*14`.  The `Except` layer carries the
(unreachable for length 64) ValueError of the password generator. -/
def build_prompt (desc : String) (choice : Nat → Fin characters.length)
    (commit_message : String) : Except String (Option String) :=
  if commit_message = "No changes." then Except.ok none
  else
    match generate_ultra_strong_password choice 64 with
    | Except.error e => Except.error e
    | Except.ok pwd =>
      let secret := "--------------" ++ pwd ++ "--------------"
      Except.ok (some (promptTemplate desc secret commit_message))

lemma characters_nodup : characters.Nodup := by decide

lemma pwdChars_length (choice : Nat → Fin characters.length) (n : Nat) :
    (pwdChars choice n).length = n := by
  simp [pwdChars]

lemma pwdChars_inj {choice choice' : Nat → Fin characters.length} {n : Nat}
    (h : pwdChars choice n = pwdChars choice' n) :
    ∀ i, i < n → choice' i = choice i := by
  intro i hi
  have h2 : (pwdChars choice n)[i]? = (pwdChars choice' n)[i]? := by rw [h]
  simp only [pwdChars, List.getElem?_map, List.getElem?_range hi,
    Option.map_some'] at h2
  have h3 : characters.get (choice i) = characters.get (choice' i) :=
    Option.some.inj h2
  exact ((characters_nodup.get_inj_iff).mp h3).symm

/-- C6: for every realization of the random source, the delimiter generated
by the prompt builder has length 64 (hence at least 64) and consists only
of letters and digits; `build_prompt` on a non-sentinel digest fences the
digest with exactly that delimiter (dash-padded); and the delimiter
determines the 64 random draws, so two invocations collide only when the
random source repeats all 64 draws (freshness up to the randomness
oracle). -/
theorem C6_delimiter_strength (choice choice' : Nat → Fin characters.length)
    (desc commit_message : String) :
    ∃ s, generate_ultra_strong_password choice 64 = Except.ok s
      ∧ s.length = 64
      ∧ (∀ c ∈ s.data, c ∈ characters)
      ∧ (commit_message ≠ "No changes." →
          build_prompt desc choice commit_message =
            Except.ok (some (promptTemplate desc
              ("--------------" ++ s ++ "--------------") commit_message)))
      ∧ (generate_ultra_strong_password choice' 64 = Except.ok s →
          ∀ i, i < 64 → choice' i = choice i) := by
  refine ⟨String.mk (pwdChars choice 64), rfl, ?_, ?_, ?_, ?_⟩
  · simp [String.length, pwdChars_length]
  · intro c hc
    simp only [pwdChars, List.mem_map, List.mem_range] at hc
    obtain ⟨i, _, rfl⟩ := hc
    exact characters.get_mem _ (choice i).2
  · intro hne
    simp only [build_prompt, if_neg hne, generate_ultra_strong_password]
    rfl
  · intro h i hi
    have h' : String.mk (pwdChars choice' 64) = String.mk (pwdChars choice 64) :=
      Except.ok.inj h
    have h'' : pwdChars choice' 64 = pwdChars choice 64 := congrArg String.data h'
    exact pwdChars_inj h''.symm i hi

/-- A fixed realization of the random source, drawing index 0 every time
(so the delimiter is 64 copies of 'a'). -/
def choice0 : Nat → Fin characters.length := fun _ => ⟨0, by decide⟩

/-- Witness for C6 at a concrete random-source realization and digest. -/
theorem C6_delimiter_strength_witness :
    (generate_ultra_strong_password choice0 64).map String.length =
      Except.ok 64
    ∧ (build_prompt "d" choice0 "msg").map Option.isSome = Except.ok true := by
  obtain ⟨s, h1, h2, _, h4, _⟩ :=
    C6_delimiter_strength choice0 choice0 "d" "msg"
  constructor
  · rw [h1]; simp [Except.map, h2]
  · rw [h4 (by decide)]; simp [Except.map]

/-! ## Notifier (send_email)

The staged `send_email` (src/main.py lines 57-84) does not parse: line 72,
`if(not ("<html>" in body or "<body>" in body or "<head>" in body))`, has
no trailing colon — a Python SyntaxError — so the function has no defined
behavior to embed.  Only the data shapes of a notification attempt are
declared here; the orchestrator below treats the notifier as a fully
abstract oracle. -/

/-- The shape of the `EmailMessage` the notifier is meant to assemble:
headers, a plain-text part and an HTML alternative.  No construction is
attached to this shape, because `send_email` does not parse. -/
structure EmailMsg where
  subject : String
  from_email : String
  to_email : String
  textPart : String
  htmlPart : String
deriving DecidableEq, Repr

/-- What the orchestrator would observe of one notifier call that returned
normally: the message attempted, whether the SMTP submission succeeded,
and the console line printed.  Values of this type come only from the
abstract notifier oracle. -/
structure SendResult where
  msg : EmailMsg
  delivered : Bool
  console : String
deriving DecidableEq, Repr

/-! ## Change harvester (scan_commits) -/

/-- One changed file of a commit's diff: `diff.a_path` and
`diff.diff.decode('utf-8', errors='ignore')` (the permissive decode is the
oracle's job, so the text is taken as given). -/
structure FileDiff where
  a_path : String
  diffText : String
deriving DecidableEq, Repr

/-- One commit as read from the repository: hash, committer timestamp (kept
as its printed form) and the first-parent diff entries in iteration
order. -/
structure Commit where
  hexsha : String
  committed_datetime : String
  diffs : List FileDiff
deriving DecidableEq, Repr

/-- Line 143, which is NOT an f-string: the literal text
`"\nCommit {commit.hexsha} - {commit.committed_datetime}"` (the braces are
written with \x7b/\x7d escapes), assigned to `message`, replacing its
previous value. -/
def commitHeaderLiteral : String :=
  "\nCommit \x7bcommit.hexsha\x7d - \x7bcommit.committed_datetime\x7d"

/-- Lines 145-146, the body of the inner `for diff in commit.diff(...)`
loop: `message` is assigned the `File:` line and then immediately
reassigned the decoded diff text — both plain assignments, not appends. -/
def scanDiffStep (message : String) (diff : FileDiff) : String :=
  let message := "\nFile: " ++ diff.a_path
  diff.diffText

/-- Lines 142-146, the body of the outer `for commit in reversed(commits)`
loop: `message` is assigned the (non-interpolated) header literal and the
inner loop then runs over the commit's diffs. -/
def scanCommitStep (message : String) (commit : Commit) : String :=
  let message := commitHeaderLiteral
  commit.diffs.foldl scanDiffStep message

/-- `scan_commits(since_date)` after the repository oracle has produced the
commit list (`iter_commits` order: newest first).  On an empty list the
function assigns the sentinel `"No changes."` to `message` but then
executes a bare `return`, producing Python `None` (modelled `none`);
otherwise the two loops run over `reversed(commits)` with the plain
assignments above. -/
def scan_commits (commits : List Commit) : Option String :=
  let message := ""
  if commits.isEmpty then
    let message := "No changes."
    none
  else
    some (commits.reverse.foldl scanCommitStep message)

/-- C1 names this claim: the digest should contain a record (hash,
timestamp) for every commit in range and, per commit, every changed file's
path and unified diff.  The code instead overwrites `message` on each
iteration, so for two single-file commits the returned digest is exactly
the decoded diff text of the newest commit's last file — the older commit,
both hashes, both timestamps and both paths are all absent (the header
line is a non-interpolated literal and is itself overwritten). -/
theorem C1_digest_overwrites_records :
    scan_commits
      [⟨"bbb222", "2025-01-02T10:00:00", [⟨"f2.py", "diff-two"⟩]⟩,
       ⟨"aaa111", "2025-01-01T10:00:00", [⟨"f1.py", "diff-one"⟩]⟩] =
      some "diff-two" := rfl

/-- C4 names this claim: on an empty commit range `scan_commits` should
return the sentinel string.  The code's empty branch performs a bare
`return`, so the harvest result is Python `None` (an absent value, not the
sentinel); `build_prompt`, for its part, does map the exact sentinel
`"No changes."` to `False` (NoOp) without generating a delimiter. -/
theorem C4_empty_range_returns_none
    (desc : String) (choice : Nat → Fin characters.length) :
    scan_commits [] = none
    ∧ build_prompt desc choice "No changes." = Except.ok none :=
  ⟨rfl, rfl⟩

/-! ## Pipeline orchestrator (main) -/

/-- Line 188: `''.join(c for c in prompt if ord(c) < 128)`. -/
def asciiFilter (s : String) : String :=
  String.mk (s.data.filter (fun c => c.toNat < 128))

/-- The external collaborators and ambient values of one `main` run.
`cloneResult` is `clone_repo()` (error = clone exception, ok b = the
fresh-clone flag; a failed pull is already swallowed inside `clone_repo`);
`nowStart` is the `datetime.now()` sampled inside `get_last_scan_date`;
`commitsSince` is the repository oracle behind
`iter_commits(branch, since=...)` (error = git exception during
harvesting); `dispatch` is `send_prompt` (error = missing API key or
non-200 response); `notify` is the oracle for the call
`send_email(to_email, subject, result)` on line 192 — `send_email`
itself does not parse (line 72 SyntaxError), so its behavior is left
entirely abstract: error stands for an exception propagating out of the
call, ok for a normal return; `nowEnd` is the `datetime.now()` sampled at
the `add_scan_date` call on line 194. -/
structure RunEnv where
  cloneResult : Except String Bool
  nowStart : Int
  commitsSince : Int → Except String (List Commit)
  projectDescription : String
  choice : Nat → Fin characters.length
  dispatch : String → Except String String
  notify : String → String → String → Except String SendResult
  toEmail : String
  repoName : String
  repoBranch : String
  nowEnd : Int

/-- How one run ended: normal completion (with the console lines of
interest and the emails attempted) or an uncaught exception. -/
inductive RunOutcome where
  | done (printed : List String) (emails : List SendResult)
  | fatal (msg : String)
deriving DecidableEq, Repr

/-- `main()`: clone/pull, read the checkpoint, harvest, and — unless
`scan_commits` returned `None` — build the prompt, ASCII-filter it,
dispatch it and hand the verdict to the (abstract) notifier, finally
appending `add_scan_date(conn, datetime.now())`.  The checkpoint store is
threaded explicitly and is returned in every outcome, fatal ones included
(an exception propagates out of `main` past the `add_scan_date` line).
The `Except.ok none` result of `build_prompt` (Python `False`) makes line
188 iterate over a bool, a `TypeError`. -/
def runMain (env : RunEnv) (db : List ScanRow) : List ScanRow × RunOutcome :=
  match env.cloneResult with
  | Except.error e => (db, RunOutcome.fatal e)
  | Except.ok fresh_clone =>
    let last_date := get_last_scan_date db fresh_clone env.nowStart
    match env.commitsSince last_date with
    | Except.error e => (db, RunOutcome.fatal e)
    | Except.ok commits =>
      match scan_commits commits with
      | none => (db, RunOutcome.done ["No changes"] [])
      | some commit_message =>
        match build_prompt env.projectDescription env.choice commit_message with
        | Except.error e => (db, RunOutcome.fatal e)
        | Except.ok none =>
          (db, RunOutcome.fatal "TypeError: argument of type bool is not iterable")
        | Except.ok (some p) =>
          let prompt := asciiFilter p
          match env.dispatch prompt with
          | Except.error e => (db, RunOutcome.fatal e)
          | Except.ok result =>
            match env.notify env.toEmail
                (env.repoName ++ " (branch: " ++ env.repoBranch ++ ") code update")
                result with
            | Except.error e => (db, RunOutcome.fatal e)
            | Except.ok sent =>
              (add_scan_date db env.nowEnd,
               RunOutcome.done ["PROMPT: " ++ prompt] [sent])

/-- A run environment with no commits in range; the notifier oracle is
never reached on this path (and is given an arbitrary returning value). -/
def envNoCommits : RunEnv where
  cloneResult := Except.ok false
  nowStart := 100
  commitsSince := fun _ => Except.ok []
  projectDescription := "descX"
  choice := choice0
  dispatch := fun _ => Except.ok "RESULT"
  notify := fun _ _ _ =>
    Except.ok ⟨⟨"", "", "", "", ""⟩, true, "Email sent successfully."⟩
  toEmail := "to@x"
  repoName := "repo"
  repoBranch := "main"
  nowEnd := 200

/-- C3 names this claim: a "no changes" run should skip analysis and email
but still advance the checkpoint.  In the code `scan_commits` returns
`None` on an empty range and `main` then returns before `add_scan_date`:
no analysis, no email — and no checkpoint row either, the store is
returned unchanged. -/
theorem C3_noop_skips_checkpoint (env : RunEnv) (db : List ScanRow) (b : Bool)
    (h1 : env.cloneResult = Except.ok b)
    (h2 : env.commitsSince (get_last_scan_date db b env.nowStart) =
      Except.ok []) :
    runMain env db = (db, RunOutcome.done ["No changes"] []) := by
  simp only [runMain, h1, h2, scan_commits, List.isEmpty_nil, if_true]

/-- Witness for C3 on a concrete environment with an empty commit range. -/
theorem C3_noop_skips_checkpoint_witness :
    runMain envNoCommits [] = ([], RunOutcome.done ["No changes"] []) :=
  C3_noop_skips_checkpoint envNoCommits [] false rfl rfl

end GitMonitor
